import Mathlib

/-!
Verification of the marksheet extraction pipeline: a shallow embedding of
`app/utils/confidence.py`, `app/services/extractor.py` (fallback subject
parser, subject-name validity predicate, field backfill pass) and
`app/services/llm.py` (`_parse_response`, `_get_empty_structure`).

Python strings are modelled as `List Char`, Python floats as `ℚ`, Python
`None`-able values as `Option`.  The `re` module usage is modelled by a
small backtracking regular-expression engine (`Re`, `reM`) with Python's
leftmost-match, greedy/lazy priority semantics; `json.loads` by a
recursive-descent JSON parser; `rapidfuzz.fuzz.token_sort_ratio / 100`
by an abstract similarity parameter `sim`.
-/

set_option maxRecDepth 10000

/-- Python strings are modelled as lists of characters. -/
abbrev Str := List Char

/-- Turn a Lean string literal into the `Str` model. -/
def str (s : String) : Str := s.toList

/-- The ASCII whitespace characters matched by Python's regex `\s` and by
`str.strip` / `str.split()` on the ASCII inputs this pipeline handles. -/
def spaceChars : List Char := [' ', '\t', '\n', '\r', '\x0b', '\x0c']

/-- Python `c.isspace()` restricted to ASCII. -/
def pyIsSpace (c : Char) : Bool := spaceChars.contains c

/-- Python `s.lower()` (ASCII case folding). -/
def lowerStr (s : Str) : Str := s.map Char.toLower

/-- Python `s.strip()`: drop whitespace at both ends. -/
def pyStrip (s : Str) : Str :=
  ((s.dropWhile pyIsSpace).reverse.dropWhile pyIsSpace).reverse

/-- Fuel-indexed worker for `pySplitWs`; the fuel is always sufficient. -/
def pySplitWsAux : Nat → Str → List Str
  | 0, _ => []
  | fuel + 1, s =>
    let t := s.dropWhile pyIsSpace
    if t.isEmpty then []
    else
      t.takeWhile (fun d => !pyIsSpace d) ::
        pySplitWsAux fuel (t.dropWhile (fun d => !pyIsSpace d))

/-- Python `s.split()` with no argument: split on whitespace runs,
discarding empty pieces. -/
def pySplitWs (s : Str) : List Str := pySplitWsAux (s.length + 1) s

/-- Splitting on a set of single-character delimiters, keeping empty
pieces: models Python `re.split` on the character class of `'-'` and `'/'`,
and `s.split` with a one-character separator such as a newline. -/
def pySplitDelims (delims : List Char) (s : Str) : List Str :=
  s.foldr
    (fun c acc =>
      if delims.contains c then [] :: acc
      else
        match acc with
        | h :: t => (c :: h) :: t
        | [] => [[c]])
    [[]]

/-- Lowest index at which `needle` occurs in `hay` (Python `hay.find(needle)`
when non-negative). -/
def findFrom (needle : Str) : Str → Option Nat
  | [] => if needle.isPrefixOf [] then some 0 else none
  | c :: t =>
    if needle.isPrefixOf (c :: t) then some 0
    else (findFrom needle t).map (fun n => n + 1)

/-- Python `needle in hay` for strings. -/
def strContains (hay needle : Str) : Bool := (findFrom needle hay).isSome

/-- Auxiliary loop for `allOccurrences`, with the same advance-by-one
restart as the Python `while True: pos = text.find(v, start); start = pos + 1`
loops in `confidence.py`. -/
def occAux (hay needle : Str) : Nat → Nat → List Nat
  | 0, _ => []
  | fuel + 1, start =>
    if hay.length < start then []
    else
      match findFrom needle (hay.drop start) with
      | none => []
      | some i => (start + i) :: occAux hay needle fuel (start + i + 1)

/-- All (possibly overlapping) occurrence positions of `needle` in `hay`,
exactly as collected by the occurrence loops in `confidence.py`. -/
def allOccurrences (hay needle : Str) : List Nat :=
  occAux hay needle (hay.length + 1) 0

/-- Python slice `s[a:b]` (for `0 ≤ a ≤ b`). -/
def pySlice (s : Str) (a b : Nat) : Str := (s.drop a).take (b - a)

/-- Python `s.isdigit()` for ASCII digit strings. -/
def isDigits (s : Str) : Bool := !s.isEmpty && s.all Char.isDigit

/-- Numeric value of an ASCII digit string. -/
def natOfDigits (s : Str) : Nat := s.foldl (fun a c => a * 10 + (c.toNat - 48)) 0

/-- Python `int(s)`: tolerates surrounding whitespace and a sign. -/
def pyParseInt (s : Str) : Option Int :=
  let t := pyStrip s
  match t with
  | '-' :: r => if isDigits r then some (-(natOfDigits r : Int)) else none
  | '+' :: r => if isDigits r then some (natOfDigits r : Int) else none
  | _ => if isDigits t then some (natOfDigits t : Int) else none

/-- Value of a fractional digit string, e.g. `"25"` ↦ `0.25`. -/
def fracOfDigits (s : Str) : ℚ := (natOfDigits s : ℚ) / (10 : ℚ) ^ s.length

/-- Pair of the leading digit run of a string and the rest. -/
def takeDigits (s : Str) : Str × Str := (s.takeWhile Char.isDigit, s.dropWhile Char.isDigit)

/-- Optional exponent suffix of a Python float literal applied to mantissa `m`;
the whole remainder must be consumed. -/
def parseExpSuffix (m : ℚ) (r : Str) : Option ℚ :=
  match r with
  | [] => some m
  | c :: rest =>
    if c = 'e' ∨ c = 'E' then
      let (neg, d) :=
        match rest with
        | '-' :: d => (true, d)
        | '+' :: d => (false, d)
        | _ => (false, rest)
      if isDigits d then
        let e : ℤ := if neg then -(natOfDigits d : ℤ) else (natOfDigits d : ℤ)
        some (m * (10 : ℚ) ^ e)
      else none
    else none

/-- Digits/decimal-point core of a Python float literal. -/
def pyParseFloatCore (s : Str) : Option ℚ :=
  let (ip, r1) := takeDigits s
  match r1 with
  | '.' :: r2 =>
    let (fp, r3) := takeDigits r2
    if ip.isEmpty && fp.isEmpty then none
    else parseExpSuffix ((natOfDigits ip : ℚ) + fracOfDigits fp) r3
  | _ => if ip.isEmpty then none else parseExpSuffix (natOfDigits ip : ℚ) r1

/-- Python `float(s)`.  The special values `inf`/`infinity`/`nan` are mapped
to rationals of magnitude `10^30`, far outside every range `[0, 1000]` or
`[0, 100]` this code compares against, so every comparison branch taken in
`_validate_field` agrees with the Python float semantics. -/
def pyParseFloat (s : Str) : Option ℚ :=
  let t := pyStrip s
  let (neg, u) :=
    match t with
    | '-' :: r => (true, r)
    | '+' :: r => (false, r)
    | _ => (false, t)
  let core :=
    if lowerStr u = str "inf" ∨ lowerStr u = str "infinity" then some ((10 : ℚ) ^ (30 : ℕ))
    else if lowerStr u = str "nan" then some (-((10 : ℚ) ^ (30 : ℕ)))
    else pyParseFloatCore u
  core.map (fun q => if neg then -q else q)

/-- Maximum of a list of rationals (`max()` on a non-empty Python list;
`0` for the empty list, which never occurs at its call sites). -/
def listMax : List ℚ → ℚ
  | [] => 0
  | h :: t => t.foldl max h

/-- Abstract syntax of the regular expressions used by the pipeline.
`cls ranges extra` is a character class given by inclusive ranges plus
extra single characters; `anyc` is `.` under `re.DOTALL` (the only mode
in which this codebase uses `.`); `eol` is `$` (end of input, or just
before a final newline, as in Python); `star a lazy` covers `*` and `*?`. -/
inductive Re where
  | eps
  | lit (c : Char)
  | cls (ranges : List (Char × Char)) (extra : List Char)
  | anyc
  | eol
  | seq (a b : Re)
  | alt (a b : Re)
  | star (a : Re) (lazy : Bool)
  | group (idx : Nat) (a : Re)
deriving DecidableEq

/-- Character-class membership test. -/
def clsMatch (ranges : List (Char × Char)) (extra : List Char) (c : Char) : Bool :=
  ranges.any (fun p => decide (p.1 ≤ c) && decide (c ≤ p.2)) || extra.contains c

/-- Captured groups, stored as an association list from group index to the
captured substring. -/
abbrev Groups := List (Nat × Str)

/-- Record a capture for group `n` (overwriting an earlier capture). -/
def setGrp (n : Nat) (v : Str) (g : Groups) : Groups :=
  (n, v) :: g.filter (fun p => p.1 ≠ n)

/-- Captured text of group `n` (empty when the group did not participate,
matching `re.findall`'s convention). -/
def grp (n : Nat) (g : Groups) : Str :=
  (((g.find? (fun p => p.1 = n)).map Prod.snd).getD [])

/-- Backtracking matcher in continuation-passing style, mirroring Python's
`re` semantics: alternatives are tried left to right, greedy repetition
prefers to consume, lazy repetition prefers not to.  `ci` is the
`re.IGNORECASE` flag (ASCII folding).  The fuel is always instantiated
large enough (see `reFuel`) that it never runs out on a halting search. -/
def reM (ci : Bool) : Nat → Re → Str → Groups →
    (Str → Groups → Option (Str × Groups)) → Option (Str × Groups)
  | 0, _, _, _, _ => none
  | fuel + 1, r, s, g, k =>
    match r with
    | .eps => k s g
    | .lit c =>
      match s with
      | [] => none
      | x :: xs =>
        if (if ci then c.toLower == x.toLower else c == x) then k xs g else none
    | .cls rs ex =>
      match s with
      | [] => none
      | x :: xs => if clsMatch rs ex x then k xs g else none
    | .anyc =>
      match s with
      | [] => none
      | _ :: xs => k xs g
    | .eol =>
      match s with
      | [] => k s g
      | ['\n'] => k s g
      | _ => none
    | .seq a b => reM ci fuel a s g (fun s2 g2 => reM ci fuel b s2 g2 k)
    | .alt a b =>
      match reM ci fuel a s g k with
      | some res => some res
      | none => reM ci fuel b s g k
    | .star a lz =>
      if lz then
        match k s g with
        | some res => some res
        | none =>
          reM ci fuel a s g (fun s2 g2 =>
            if s2.length < s.length then reM ci fuel (.star a lz) s2 g2 k else none)
      else
        match reM ci fuel a s g (fun s2 g2 =>
            if s2.length < s.length then reM ci fuel (.star a lz) s2 g2 k else none) with
        | some res => some res
        | none => k s g
    | .group n a =>
      reM ci fuel a s g (fun s2 g2 => k s2 (setGrp n (s.take (s.length - s2.length)) g2))

/-- Structural size of a pattern, used to compute a sufficient fuel. -/
def reSize : Re → Nat
  | .seq a b => reSize a + reSize b + 1
  | .alt a b => reSize a + reSize b + 1
  | .star a _ => reSize a + 1
  | .group _ a => reSize a + 1
  | _ => 1

/-- Fuel that is ample for matching `r` against `s`: the recursion depth of
`reM` is bounded by the pattern size times the number of star iterations,
and every star iteration consumes at least one input character. -/
def reFuel (r : Re) (s : Str) : Nat := (reSize r + 2) * (s.length + 2)

/-- Attempt a match of `r` anchored at the start of `s`; returns the
unconsumed rest and the captured groups. -/
def reMatchAt (ci : Bool) (r : Re) (s : Str) : Option (Str × Groups) :=
  reM ci (reFuel r s) r s [] (fun s2 g2 => some (s2, g2))

/-- Python `re.match(r, s)` viewed as a Boolean (the callers in
`confidence.py` only test its truthiness). -/
def reMatchHead (ci : Bool) (r : Re) (s : Str) : Bool := (reMatchAt ci r s).isSome

/-- Worker for `reSearch`: try each start position from left to right. -/
def reSearchAux (ci : Bool) (r : Re) : Nat → Str → Option (Nat × Nat × Groups)
  | pos, s =>
    match reMatchAt ci r s with
    | some (rest, g) => some (pos, pos + (s.length - rest.length), g)
    | none =>
      match s with
      | [] => none
      | _ :: xs => reSearchAux ci r (pos + 1) xs

/-- Python `re.search(r, s)`: leftmost match, reported as
`(start, end, groups)`. -/
def reSearch (ci : Bool) (r : Re) (s : Str) : Option (Nat × Nat × Groups) :=
  reSearchAux ci r 0 s

/-- Worker for `reFindall`; `base` is the absolute offset of `s`. -/
def reFindallAux (ci : Bool) (r : Re) : Nat → Str → Nat → List (Nat × Nat × Groups)
  | 0, _, _ => []
  | fuel + 1, s, base =>
    match reSearch ci r s with
    | none => []
    | some (st, en, g) =>
      let adv := if st < en then en else en + 1
      (base + st, base + en, g) :: reFindallAux ci r fuel (s.drop adv) (base + adv)

/-- Python `re.findall(r, s)`: non-overlapping matches from left to right
(with the callers reading the captured groups of each match). -/
def reFindall (ci : Bool) (r : Re) (s : Str) : List (Nat × Nat × Groups) :=
  reFindallAux ci r (s.length + 1) s 0

/-- Concatenation of a list of patterns. -/
def rseq (l : List Re) : Re := l.foldr Re.seq Re.eps

/-- Alternation of a list of patterns (left to right priority). -/
def ralt : List Re → Re
  | [] => Re.eps
  | [r] => r
  | r :: rs => Re.alt r (ralt rs)

/-- Literal string pattern. -/
def rlit (s : String) : Re := rseq (s.toList.map Re.lit)

/-- Case-insensitive literal string pattern, for Python's inline `(?i: )`
groups inside otherwise case-sensitive patterns. -/
def rlitCI (s : String) : Re :=
  rseq (s.toList.map (fun c => Re.cls [] [c.toLower, c.toUpper]))

/-- Greedy option `r?`. -/
def ropt (r : Re) : Re := Re.alt r Re.eps

/-- Greedy star `r*`. -/
def rstar (r : Re) : Re := Re.star r false

/-- Greedy plus `r+`. -/
def rplus (r : Re) : Re := Re.seq r (Re.star r false)

/-- The digit class `\d`. -/
def rdigit : Re := Re.cls [('0', '9')] []

/-- The whitespace class `\s`. -/
def rspace : Re := Re.cls [] spaceChars

/-- The ASCII letter ranges of `A-Za-z`. -/
def alphaRanges : List (Char × Char) := [('A', 'Z'), ('a', 'z')]

/-- Pattern of `_validate_field` for `name`: one or more of letters, space,
hyphen, dot, apostrophe, up to the end of the value. -/
def patName : Re :=
  rseq [rplus (Re.cls alphaRanges (spaceChars ++ ['-', '.', '\''])), Re.eol]

/-- Date shape `D[-slash]M[-slash]YYYY` with one- or two-digit day and
month, used by the `dob` and `date` validations. -/
def patDMY : Re :=
  rseq [rdigit, ropt rdigit, Re.cls [] ['-', '/'], rdigit, ropt rdigit,
    Re.cls [] ['-', '/'], rdigit, rdigit, rdigit, rdigit, Re.eol]

/-- Pattern for `roll_no` / `registration_no`: letters, digits, hyphen, slash. -/
def patRollNo : Re :=
  rseq [rplus (Re.cls (alphaRanges ++ [('0', '9')]) ['-', '/']), Re.eol]

/-- Pattern for `exam_year`: `(19|20)` followed by two digits. -/
def patExamYear : Re :=
  rseq [Re.group 1 (Re.alt (rlit "19") (rlit "20")), rdigit, rdigit, Re.eol]

/-- Pattern for `board`: letters, whitespace, ampersand, hyphen. -/
def patBoard : Re := rseq [rplus (Re.cls alphaRanges (spaceChars ++ ['&', '-'])), Re.eol]

/-- Pattern for `institution`: letters, whitespace, ampersand, hyphen, dot. -/
def patInstitution : Re :=
  rseq [rplus (Re.cls alphaRanges (spaceChars ++ ['&', '-', '.'])), Re.eol]

/-- Pattern for `subject`: letters, digits, whitespace, parens, hyphen,
ampersand. -/
def patSubject : Re :=
  rseq [rplus (Re.cls (alphaRanges ++ [('0', '9')]) (spaceChars ++ ['(', ')', '-', '&'])),
    Re.eol]

/-- Pattern for `grade`: a top-level alternation whose first alternative is
a letter grade `A`..`F` with optional sign up to the end, and whose later
alternatives are the bare words (only `Fail` carries the trailing anchor,
exactly as in the source pattern). -/
def patGrade : Re :=
  ralt [rseq [Re.cls [('A', 'F')] [], ropt (Re.cls [] ['+', '-']), Re.eol],
    rlit "First", rlit "Second", rlit "Third", rlit "Pass",
    rseq [rlit "Fail", Re.eol]]

/-- Pattern for `division` (again only the last alternative is anchored at
the end, as in the source). -/
def patDivision : Re :=
  ralt [rlit "First", rlit "Second", rlit "Third", rlit "Distinction",
    rlit "Pass", rseq [rlit "Fail", Re.eol]]

/-- Pattern for `place`: letters, whitespace, hyphen. -/
def patPlace : Re := rseq [rplus (Re.cls alphaRanges (spaceChars ++ ['-'])), Re.eol]

/-- The `name` (and, by delegation, `father_name`) branch of
`_validate_field`: `0.95` for two or more capitalized words of a name-like
alphabet, `0.8` for any other match of that alphabet, `0.3` otherwise. -/
def validate_name (v : Str) : ℚ :=
  if reMatchHead false patName v then
    let words := pySplitWs v
    if 2 ≤ words.length ∧ words.all (fun w => (w.headD ' ').isUpper) then 0.95
    else 0.8
  else 0.3

/-- The shared `dob` / `date` branch of `_validate_field`: shape check via
`patDMY`, then range check of the three parts split on `-` or `/`. -/
def validate_date (v : Str) : ℚ :=
  if reMatchHead false patDMY v then
    match pySplitDelims ['-', '/'] v with
    | d :: m :: y :: _ =>
      match pyParseInt d, pyParseInt m, pyParseInt y with
      | some dd, some mm, some yy =>
        if 1 ≤ dd ∧ dd ≤ 31 ∧ 1 ≤ mm ∧ mm ≤ 12 ∧ 1900 ≤ yy ∧ yy ≤ 2100 then 0.95
        else 0.2
      | _, _, _ => 0.2
    | _ => 0.2
  else 0.2

/-- The `exam_year` branch of `_validate_field`.  After the regex matched,
Python's `int()` cannot fail, so the unreachable parse-failure arm returns
the same `0.3` as a failed range check. -/
def validate_exam_year (v : Str) : ℚ :=
  if reMatchHead false patExamYear v then
    match pyParseInt v with
    | some y => if 1980 ≤ y ∧ y ≤ 2100 then 0.95 else 0.3
    | none => 0.3
  else 0.3

/-- The `max_marks` / `obtained_marks` branch of `_validate_field`. -/
def validate_marks (v : Str) : ℚ :=
  match pyParseFloat v with
  | some m => if 0 ≤ m ∧ m ≤ 1000 then 0.95 else 0.7
  | none => 0.1

/-- The `percentage` branch of `_validate_field`. -/
def validate_percentage (v : Str) : ℚ :=
  match pyParseFloat v with
  | some p => if 0 ≤ p ∧ p ≤ 100 then 0.95 else 0.5
  | none => 0.1

/-- `_validate_field` from `confidence.py`: per-field syntactic
plausibility score.  The `father_name` branch delegates to the `name`
branch exactly as the source does. -/
def _validate_field (field_name v : Str) : ℚ :=
  if v = [] then 0
  else if field_name = str "name" then validate_name v
  else if field_name = str "father_name" then validate_name v
  else if field_name = str "dob" then validate_date v
  else if field_name = str "roll_no" ∨ field_name = str "registration_no" then
    (if reMatchHead false patRollNo v then 0.9 else 0.5)
  else if field_name = str "exam_year" then validate_exam_year v
  else if field_name = str "board" then
    (if reMatchHead false patBoard v ∧ (v.headD ' ').isUpper then 0.9 else 0.5)
  else if field_name = str "institution" then
    (if reMatchHead false patInstitution v ∧ (v.headD ' ').isUpper then 0.9 else 0.5)
  else if field_name = str "subject" then
    (if reMatchHead false patSubject v ∧ (v.headD ' ').isUpper then 0.9 else 0.5)
  else if field_name = str "max_marks" ∨ field_name = str "obtained_marks" then
    validate_marks v
  else if field_name = str "grade" then
    (if reMatchHead false patGrade v then 0.9 else 0.4)
  else if field_name = str "division" then
    (if reMatchHead false patDivision v then 0.95 else 0.3)
  else if field_name = str "percentage" then validate_percentage v
  else if field_name = str "date" then validate_date v
  else if field_name = str "place" then
    (if reMatchHead false patPlace v ∧ (v.headD ' ').isUpper then 0.9 else 0.5)
  else 0.7

/-- The four OCR-confusion indicator patterns of `_get_ocr_confidence`:
digits around `o`/`O`, `l`/`I` next to digits, and letters directly
followed by digits (two or more of each). -/
def ocrErrorPatterns : List Re :=
  [rseq [rplus rdigit, Re.cls [] ['o', 'O'], rplus rdigit],
   rseq [Re.cls [] ['l', 'I'], rplus rdigit],
   rseq [rplus rdigit, Re.cls [] ['l', 'I']],
   rseq [Re.cls alphaRanges [], rplus (Re.cls alphaRanges []),
     Re.cls [('0', '9')] [], rplus (Re.cls [('0', '9')] [])]]

/-- `_get_ocr_confidence` from `confidence.py`.  `sim` abstracts the
external `rapidfuzz.fuzz.token_sort_ratio(a, b) / 100.0` similarity. -/
def _get_ocr_confidence (sim : Str → Str → ℚ) (v text : Str) : ℚ :=
  if ¬ strContains text v then 0.5
  else if ocrErrorPatterns.any (fun r => (reSearch false r v).isSome) then 0.6
  else
    let occ := allOccurrences text v
    if ¬ occ.isEmpty then
      let maxSim := occ.foldl
        (fun acc pos =>
          max acc (sim v (pySlice text (pos - 50) (min text.length (pos + v.length + 50)))))
        0
      if 0.9 < maxSim then 0.9
      else if 0.7 < maxSim then 0.8
      else if 0.5 < maxSim then 0.7
      else 0.85
    else 0.85

/-- `_get_field_indicators` from `confidence.py`: the per-field anchor
keyword lists (empty for unknown fields). -/
def _get_field_indicators (field_name : Str) : List Str :=
  if field_name = str "name" then [str "name", str "candidate", str "student", str "name of"]
  else if field_name = str "father_name" then
    [str "father", str "mother", str "parent", str "guardian", str "s/o", str "d/o"]
  else if field_name = str "dob" then [str "birth", str "dob", str "date of birth", str "born"]
  else if field_name = str "roll_no" then
    [str "roll", str "roll no", str "roll number", str "roll no."]
  else if field_name = str "registration_no" then
    [str "reg", str "registration", str "reg no", str "reg. no"]
  else if field_name = str "exam_year" then
    [str "year", str "exam year", str "year of", str "academic year"]
  else if field_name = str "board" then
    [str "board", str "university", str "council", str "authority"]
  else if field_name = str "institution" then
    [str "school", str "college", str "institution", str "academy", str "vidyalaya"]
  else if field_name = str "subject" then
    [str "subject", str "paper", str "course", str "discipline"]
  else if field_name = str "max_marks" then
    [str "max", str "maximum", str "total", str "out of"]
  else if field_name = str "obtained_marks" then
    [str "obtained", str "scored", str "secured", str "marks"]
  else if field_name = str "grade" then [str "grade", str "grading", str "result"]
  else if field_name = str "division" then
    [str "division", str "class", str "distinction", str "category"]
  else if field_name = str "percentage" then
    [str "percentage", str "percent", str "%", str "aggregate"]
  else if field_name = str "date" then
    [str "date", str "issue date", str "dated", str "date of issue"]
  else if field_name = str "place" then
    [str "place", str "issued at", str "place of issue", str "location"]
  else []

/-- The per-field boost term lists of the `if`/`elif` chain inside
`_get_context_confidence` (the lists compared against the window before
raising the score to `0.9`). -/
def contextBoostTerms (field_name : Str) : List Str :=
  if field_name = str "name" then
    [str "candidate", str "student", str "name of", str "s/o", str "d/o",
     str "son of", str "daughter of"]
  else if field_name = str "father_name" then
    [str "father", str "mother", str "parent", str "guardian", str "s/o", str "d/o"]
  else if field_name = str "dob" then
    [str "birth", str "dob", str "date of birth", str "born"]
  else if field_name = str "roll_no" then
    [str "roll", str "roll no", str "roll number", str "roll no."]
  else if field_name = str "registration_no" then
    [str "reg", str "registration", str "reg no", str "reg. no"]
  else if field_name = str "exam_year" then
    [str "year", str "exam year", str "year of", str "academic year"]
  else if field_name = str "board" then
    [str "board", str "university", str "council", str "authority"]
  else if field_name = str "institution" then
    [str "school", str "college", str "institution", str "academy", str "vidyalaya"]
  else if field_name = str "subject" then
    [str "subject", str "paper", str "course", str "discipline"]
  else if field_name = str "max_marks" ∨ field_name = str "obtained_marks" then
    [str "marks", str "score", str "points", str "maximum", str "obtained", str "secured"]
  else if field_name = str "grade" then [str "grade", str "grading", str "result"]
  else if field_name = str "division" then
    [str "division", str "class", str "distinction", str "category"]
  else if field_name = str "percentage" then
    [str "percentage", str "percent", str "%", str "aggregate"]
  else if field_name = str "date" then
    [str "date", str "issue date", str "dated", str "date of issue"]
  else if field_name = str "place" then
    [str "place", str "issued at", str "place of issue", str "location"]
  else []

/-- The `if field_name == ... and any(term in context ...)` chain of
`_get_context_confidence`.  Each branch of the Python chain tests a
distinct field name, so nesting on the field name first is equivalent. -/
def contextBoost (field_name ctx : Str) (score : ℚ) : ℚ :=
  if (contextBoostTerms field_name).any (fun term => strContains ctx term) then
    max score 0.9
  else score

/-- Score of a single ±150-character window inside
`_get_context_confidence`: the indicator loop (raising to `0.8`), then the
field-specific boost chain (raising to `0.9`), then the `0.5` default for
a still-zero score. -/
def contextWindowScore (field_name ctx : Str) : ℚ :=
  let s1 := (_get_field_indicators field_name).foldl
    (fun sc ind => if strContains ctx ind then max sc 0.8 else sc) 0
  let s2 := contextBoost field_name ctx s1
  if s2 = 0 then 0.5 else s2

/-- `_get_context_confidence` from `confidence.py`: `0.3` when the value
does not occur in the OCR text, otherwise the maximum window score over
all occurrences. -/
def _get_context_confidence (field_name v ocr_text : Str) : ℚ :=
  let occ := allOccurrences ocr_text v
  if occ.isEmpty then 0.3
  else
    listMax (occ.map (fun pos =>
      contextWindowScore field_name
        (lowerStr (pySlice ocr_text (pos - 150) (min ocr_text.length (pos + v.length + 150))))))

/-- `calculate_confidence` from `confidence.py`: `0` for a falsy value,
otherwise the weighted blend of the three sub-scores clamped to `[0, 1]`.
The OCR result is represented by its `text`; `sim` abstracts the external
fuzzy-similarity dependency. -/
def calculate_confidence (sim : Str → Str → ℚ) (field_name : Str)
    (field_value : Option Str) (ocr_text : Str) : ℚ :=
  match field_value with
  | none => 0
  | some v =>
    if v = [] then 0
    else
      let validation := _validate_field field_name v
      let ocr := _get_ocr_confidence sim v ocr_text
      let context := _get_context_confidence field_name v ocr_text
      max 0 (min 1 (0.4 * validation + 0.3 * ocr + 0.3 * context))

/-- One subject row as built by the fallback subject parser in
`extractor.py` (marks come from Python `int()` there). -/
structure SubjectRow where
  subject : Str
  max_marks : Option Int
  obtained_marks : Option Int
  grade : Option Str
deriving DecidableEq

/-- The `exclude_terms` stoplist of `_is_valid_subject`. -/
def exclude_terms : List Str :=
  [str "total", str "grand total", str "result", str "division", str "percentage",
   str "grade", str "marks", str "obtained", str "maximum", str "subject", str "name",
   str "roll", str "registration", str "board", str "school", str "college",
   str "first", str "second"]

/-- `_is_valid_subject` from `extractor.py`: reject on a stoplist hit in
the lowercased name, on length under 3, on a non-letter first character,
and on an alphabetic-character ratio of at most one half. -/
def _is_valid_subject (subject_name : Str) : Bool :=
  let subject_lower := lowerStr subject_name
  if exclude_terms.any (fun term => strContains subject_lower term) then false
  else if subject_name.length < 3 || !(subject_name.headD ' ').isAlpha then false
  else
    decide ((1 : ℚ) / 2 < ((subject_name.filter Char.isAlpha).length : ℚ) / subject_name.length)

/-- The character class of subject names in the fallback patterns:
letters, whitespace, ampersand. -/
def subjNameCls : Re := Re.cls alphaRanges (spaceChars ++ ['&'])

/-- Optional colon-or-hyphen separator with surrounding optional
whitespace, followed by a captured digit run — the tail shared by all
eight known-label patterns. -/
def labelNumRe (pre : Re) : Re :=
  rseq [pre, rstar rspace, ropt (Re.cls [] [':', '-']), rstar rspace,
    Re.group 1 (rplus rdigit)]

/-- The `expected_patterns` table of `_extract_subjects_fallback`: the
eight known board-specific subject labels with their canonical names. -/
def expected_patterns : List (Re × Str) :=
  [(labelNumRe (rlit "FIRST LANGUAGE"), str "FIRST LANGUAGE"),
   (labelNumRe (rlit "SECOND LANGUAGE"), str "SECOND LANGUAGE"),
   (labelNumRe (rlit "MATHS"), str "MATHS"),
   (labelNumRe (rlit "SCIENCE"), str "SCIENCE"),
   (labelNumRe (rseq [rlit "HISTORY", rstar rspace, rlit "(WRITTEN)"]), str "HISTORY (WRITTEN)"),
   (labelNumRe (rseq [rlit "HISTORY", rstar rspace, rlit "(ORAL)"]), str "HISTORY (ORAL)"),
   (labelNumRe (rseq [rlit "GEOGRAPHY", rstar rspace, rlit "(WRITTEN)"]), str "GEOGRAPHY (WRITTEN)"),
   (labelNumRe (rseq [rlit "GEOGRAPHY", rstar rspace, rlit "(ORAL)"]), str "GEOGRAPHY (ORAL)")]

/-- Known-label phase of `_extract_subjects_fallback`: every `findall`
match whose captured digits pass `isdigit` becomes a row with the
canonical label and the obtained marks. -/
def expectedSubjectRows (ocr_text : Str) : List SubjectRow :=
  expected_patterns.flatMap (fun pr =>
    (reFindall true pr.1 ocr_text).filterMap (fun m =>
      let g := grp 1 m.2.2
      if isDigits g then
        some { subject := pr.2, max_marks := none,
               obtained_marks := some (natOfDigits g : Int), grade := none }
      else none))

/-- Generic table pattern 1: pipe-delimited
`name | max | obtained | grade` rows. -/
def tablePat1 : Re :=
  rseq [Re.group 1 (rplus subjNameCls), rstar rspace, Re.lit '|', rstar rspace,
    Re.group 2 (rplus rdigit), rstar rspace, Re.lit '|', rstar rspace,
    Re.group 3 (rplus rdigit), rstar rspace, Re.lit '|', rstar rspace,
    Re.group 4 (rstar (Re.cls (alphaRanges ++ [('0', '9')]) ['+', '-']))]

/-- Generic table pattern 2: whitespace-delimited
`name max obtained grade` rows. -/
def tablePat2 : Re :=
  rseq [Re.group 1 (rplus subjNameCls), rplus rspace, Re.group 2 (rplus rdigit),
    rplus rspace, Re.group 3 (rplus rdigit), rplus rspace,
    Re.group 4 (rstar (Re.cls (alphaRanges ++ [('0', '9')]) ['+', '-']))]

/-- Generic table pattern 3: `name: obtained / max` rows. -/
def tablePat3 : Re :=
  rseq [Re.group 1 (rplus subjNameCls), Re.lit ':', rstar rspace,
    Re.group 2 (rplus rdigit), rstar rspace, Re.lit '/', rstar rspace,
    Re.group 3 (rplus rdigit)]

/-- Generic table pattern 4: `name - marks` rows. -/
def tablePat4 : Re :=
  rseq [Re.group 1 (rplus subjNameCls), rstar rspace, Re.lit '-', rstar rspace,
    Re.group 2 (rplus rdigit)]

/-- Generic table pattern 5 (also line pattern 2): bare `name marks` rows. -/
def tablePat5 : Re :=
  rseq [Re.group 1 (rplus subjNameCls), rplus rspace, Re.group 2 (rplus rdigit)]

/-- Line pattern 1: `name` with optional colon/hyphen separator and marks. -/
def linePat1 : Re :=
  rseq [Re.group 1 (rplus subjNameCls), rstar rspace, ropt (Re.cls [] [':', '-']),
    rstar rspace, Re.group 2 (rplus rdigit)]

/-- Line pattern 3: `name obtained / max`. -/
def linePat3 : Re :=
  rseq [Re.group 1 (rplus subjNameCls), rstar rspace, Re.group 2 (rplus rdigit),
    rstar rspace, Re.lit '/', rstar rspace, Re.group 3 (rplus rdigit)]

/-- Row built from a four-group table match: stripped name gated by
`_is_valid_subject`, digit-checked max/obtained marks, and a grade that is
`None` exactly when the raw captured grade is empty. -/
def mkRow4 (g : Groups) : Option SubjectRow :=
  let subject_name := pyStrip (grp 1 g)
  let mx := pyStrip (grp 2 g)
  let ob := pyStrip (grp 3 g)
  let grRaw := grp 4 g
  if _is_valid_subject subject_name then
    some { subject := subject_name,
           max_marks := if isDigits mx then some (natOfDigits mx : Int) else none,
           obtained_marks := if isDigits ob then some (natOfDigits ob : Int) else none,
           grade := if grRaw.isEmpty then none else some (pyStrip grRaw) }
  else none

/-- Row built from a three-group match: group 2 is the obtained marks and
group 3 the maximum, as in the source's `len(match) == 3` branch. -/
def mkRow3 (g : Groups) : Option SubjectRow :=
  let subject_name := pyStrip (grp 1 g)
  let ob := pyStrip (grp 2 g)
  let mx := pyStrip (grp 3 g)
  if _is_valid_subject subject_name then
    some { subject := subject_name,
           max_marks := if isDigits mx then some (natOfDigits mx : Int) else none,
           obtained_marks := if isDigits ob then some (natOfDigits ob : Int) else none,
           grade := none }
  else none

/-- Row built from a two-group match: group 2 is the obtained marks. -/
def mkRow2 (g : Groups) : Option SubjectRow :=
  let subject_name := pyStrip (grp 1 g)
  let marks := pyStrip (grp 2 g)
  if _is_valid_subject subject_name then
    some { subject := subject_name, max_marks := none,
           obtained_marks := if isDigits marks then some (natOfDigits marks : Int) else none,
           grade := none }
  else none

/-- Whole-text generic phase of `_extract_subjects_fallback`: all five
table patterns are applied with `re.findall` (case-insensitively) and every
match contributes, in pattern order. -/
def tablePhaseRows (ocr_text : Str) : List SubjectRow :=
  ((reFindall true tablePat1 ocr_text).filterMap (fun m => mkRow4 m.2.2)) ++
  ((reFindall true tablePat2 ocr_text).filterMap (fun m => mkRow4 m.2.2)) ++
  ((reFindall true tablePat3 ocr_text).filterMap (fun m => mkRow3 m.2.2)) ++
  ((reFindall true tablePat4 ocr_text).filterMap (fun m => mkRow2 m.2.2)) ++
  ((reFindall true tablePat5 ocr_text).filterMap (fun m => mkRow2 m.2.2))

/-- A single `re.search` attempt of one line pattern on one line
(case-sensitively, as the line loop passes no flags). -/
def lineTry (p : Re) (mk : Groups → Option SubjectRow) (line : Str) : List SubjectRow :=
  match reSearch false p line with
  | none => []
  | some m => (mk m.2.2).toList

/-- Line-by-line phase of `_extract_subjects_fallback`: every line is
tried against all three line patterns (arity two, two, and three). -/
def linePhaseRows (ocr_text : Str) : List SubjectRow :=
  (pySplitDelims ['\n'] ocr_text).flatMap (fun line =>
    lineTry linePat1 mkRow2 line ++ lineTry tablePat5 mkRow2 line ++
      lineTry linePat3 mkRow3 line)

/-- `_extract_subjects_fallback` from `extractor.py`: the known-label rows
are returned alone when there are at least three of them; otherwise the
generic whole-text rows and then the line-by-line rows are appended to
them (the accumulating list is never cleared). -/
def _extract_subjects_fallback (ocr_text : Str) : List SubjectRow :=
  let subjects := expectedSubjectRows ocr_text
  if 3 ≤ subjects.length then subjects
  else subjects ++ tablePhaseRows ocr_text ++ linePhaseRows ocr_text

/-- The `candidate_details` group of the structured record. -/
structure CandidateDetails where
  name : Option Str
  father_name : Option Str
  dob : Option Str
  roll_no : Option Str
  registration_no : Option Str
  exam_year : Option Str
  board : Option Str
  institution : Option Str
deriving DecidableEq

/-- The `overall_result` group of the structured record. -/
structure OverallResult where
  division : Option Str
  percentage : Option ℚ
  grade : Option Str
deriving DecidableEq

/-- The `issue_details` group of the structured record. -/
structure IssueDetails where
  date : Option Str
  place : Option Str
deriving DecidableEq

/-- The structured record handed to `_post_process_missing_fields`. -/
structure StructuredData where
  candidate_details : CandidateDetails
  subjects : List SubjectRow
  overall_result : OverallResult
  issue_details : IssueDetails
deriving DecidableEq

/-- Python truthiness of an optional string (`None` and `""` are falsy). -/
def truthyS : Option Str → Bool
  | none => false
  | some s => !s.isEmpty

/-- Python truthiness of an optional number (`None` and `0.0` are falsy). -/
def truthyQ : Option ℚ → Bool
  | none => false
  | some q => decide (q ≠ 0)

/-- One backfill block for a string field: `if not cur: if match: assign`.
The attempted extraction depends only on the OCR text. -/
def fillS (cur found : Option Str) : Option Str :=
  if truthyS cur then cur
  else
    match found with
    | some v => some v
    | none => cur

/-- One backfill block for a numeric field. -/
def fillQ (cur found : Option ℚ) : Option ℚ :=
  if truthyQ cur then cur
  else
    match found with
    | some v => some v
    | none => cur

/-- First pattern of an ordered list that `re.search`-matches the text,
returning its groups (the per-field `for pattern in ...: if match: break`
loops of `_post_process_missing_fields`). -/
def firstSearch (ci : Bool) (t : Str) : List Re → Option Groups
  | [] => none
  | p :: rest =>
    match reSearch ci p t with
    | some m => some m.2.2
    | none => firstSearch ci t rest

/-- The class `[:\s]` of label separators in the backfill patterns. -/
def colonSpace : Re := Re.cls [] (':' :: spaceChars)

/-- A captured alphabetic-with-spaces run, `([A-Za-z\s]+)` as group 1. -/
def grpAlphaSpace : Re := Re.group 1 (rplus (Re.cls alphaRanges spaceChars))

/-- A captured letters/digits/hyphen/slash run as group 1. -/
def grpAlnum : Re := Re.group 1 (rplus (Re.cls (alphaRanges ++ [('0', '9')]) ['-', '/']))

/-- The date shape of the backfill patterns, without anchors. -/
def dmyCore : Re :=
  rseq [rdigit, ropt rdigit, Re.cls [] ['-', '/'], rdigit, ropt rdigit,
    Re.cls [] ['-', '/'], rdigit, rdigit, rdigit, rdigit]

/-- The captured number of the percentage patterns,
a digit run with optional fraction as group 1. -/
def grpNumber : Re :=
  Re.group 1 (rseq [rplus rdigit, ropt (rseq [Re.lit '.', rplus rdigit])])

/-- The captured year alternation `(19|20\d{2})` of the exam-year backfill
patterns — note that the alternation binds so that a bare `19` is a valid
(and preferred) capture, exactly as in the source pattern. -/
def grpYearAlt : Re :=
  Re.group 1 (Re.alt (rlit "19") (rseq [rlit "20", rdigit, rdigit]))

/-- Name backfill patterns (`Name:`, `Candidate:`, `Student:`). -/
def namePatterns : List Re :=
  [rseq [rlit "Name", rplus colonSpace, grpAlphaSpace],
   rseq [rlit "Candidate", rplus colonSpace, grpAlphaSpace],
   rseq [rlit "Student", rplus colonSpace, grpAlphaSpace]]

/-- Father-name backfill patterns. -/
def fatherPatterns : List Re :=
  [rseq [rlit "Father's Name", rplus colonSpace, grpAlphaSpace],
   rseq [rlit "Father", rplus colonSpace, grpAlphaSpace],
   rseq [rlit "S/O", rplus colonSpace, grpAlphaSpace]]

/-- Date-of-birth backfill patterns; only the last carries an inline
case-insensitive group, the loop itself passes no flags. -/
def dobPatterns : List Re :=
  [rseq [rlit "Date of Birth", rplus colonSpace, Re.group 1 dmyCore],
   rseq [rlit "DOB", rplus colonSpace, Re.group 1 dmyCore],
   rseq [rlit "Birth", rplus colonSpace, Re.group 1 dmyCore],
   rseq [rlit "Born", rplus colonSpace, Re.group 1 dmyCore],
   rseq [Re.group 1 dmyCore, rstar rspace,
     ralt [rlitCI "DOB", rlitCI "Birth", rlitCI "Born"]]]

/-- Roll-number backfill patterns. -/
def rollPatterns : List Re :=
  [rseq [rlit "Roll No", rplus colonSpace, grpAlnum],
   rseq [rlit "Roll Number", rplus colonSpace, grpAlnum],
   rseq [rlit "Roll", rplus colonSpace, grpAlnum]]

/-- Registration-number backfill patterns. -/
def regPatterns : List Re :=
  [rseq [rlit "Registration No", rplus colonSpace, grpAlnum],
   rseq [rlit "Reg. No", rplus colonSpace, grpAlnum],
   rseq [rlit "Reg", rplus colonSpace, grpAlnum],
   rseq [rlit "Registration", rplus colonSpace, grpAlnum]]

/-- Exam-year backfill patterns. -/
def yearPatterns : List Re :=
  [rseq [rlit "Year", rplus colonSpace, grpYearAlt],
   rseq [rlit "Exam Year", rplus colonSpace, grpYearAlt],
   rseq [rlit "Examination Year", rplus colonSpace, grpYearAlt],
   rseq [grpYearAlt, rstar rspace, ralt [rlitCI "Year", rlitCI "Exam"]]]

/-- Board backfill patterns. -/
def boardPatterns : List Re :=
  [rseq [rlit "Board", rplus colonSpace,
     Re.group 1 (rplus (Re.cls alphaRanges (spaceChars ++ ['&', '-'])))],
   rseq [rlit "University", rplus colonSpace,
     Re.group 1 (rplus (Re.cls alphaRanges (spaceChars ++ ['&', '-'])))],
   rseq [rlit "Council", rplus colonSpace,
     Re.group 1 (rplus (Re.cls alphaRanges (spaceChars ++ ['&', '-'])))]]

/-- Institution backfill patterns. -/
def institutionPatterns : List Re :=
  [rseq [rlit "School", rplus colonSpace,
     Re.group 1 (rplus (Re.cls alphaRanges (spaceChars ++ ['&', '-', '.'])))],
   rseq [rlit "College", rplus colonSpace,
     Re.group 1 (rplus (Re.cls alphaRanges (spaceChars ++ ['&', '-', '.'])))],
   rseq [rlit "Institution", rplus colonSpace,
     Re.group 1 (rplus (Re.cls alphaRanges (spaceChars ++ ['&', '-', '.'])))]]

/-- Division backfill patterns. -/
def divisionPatterns : List Re :=
  [rseq [rlit "Division", rplus colonSpace,
     Re.group 1 (ralt [rlit "First", rlit "Second", rlit "Third", rlit "Distinction"])],
   rseq [rlit "Class", rplus colonSpace,
     Re.group 1 (ralt [rlit "First", rlit "Second", rlit "Third", rlit "Distinction"])],
   rseq [rlit "Result", rplus colonSpace,
     Re.group 1 (ralt [rlit "First", rlit "Second", rlit "Third", rlit "Distinction"])]]

/-- Percentage backfill patterns. -/
def percentagePatterns : List Re :=
  [rseq [rlit "Percentage", rplus colonSpace, grpNumber, Re.lit '%'],
   rseq [grpNumber, Re.lit '%', rstar rspace, ralt [rlitCI "Percentage", rlitCI "Percent"]],
   rseq [rlit "Overall", rplus colonSpace, grpNumber, Re.lit '%']]

/-- Issue-date backfill patterns. -/
def datePatterns : List Re :=
  [rseq [rlit "Date of Issue", rplus colonSpace, Re.group 1 dmyCore],
   rseq [rlit "Issue Date", rplus colonSpace, Re.group 1 dmyCore],
   rseq [rlit "Dated", rplus colonSpace, Re.group 1 dmyCore],
   rseq [Re.group 1 dmyCore, rstar rspace, ralt [rlitCI "Date", rlitCI "Dated"]]]

/-- Place backfill patterns. -/
def placePatterns : List Re :=
  [rseq [rlit "Place", rplus colonSpace, grpAlphaSpace],
   rseq [rlit "Issued at", rplus colonSpace, grpAlphaSpace],
   rseq [rlit "Place of Issue", rplus colonSpace, grpAlphaSpace]]

/-- Normalize a date by replacing every slash with a hyphen
(`re.sub` on the slash class). -/
def slashToDash (s : Str) : Str := s.map (fun c => if c = '/' then '-' else c)

/-- Backfill extraction for the name field: stripped group 1 of the first
matching pattern (searched case-insensitively). -/
def backfillName (t : Str) : Option Str :=
  (firstSearch true t namePatterns).map (fun g => pyStrip (grp 1 g))

/-- Backfill extraction for the father-name field. -/
def backfillFather (t : Str) : Option Str :=
  (firstSearch true t fatherPatterns).map (fun g => pyStrip (grp 1 g))

/-- Backfill extraction for the date of birth: group 1 of the first
matching pattern (searched with no flags), slashes normalized to hyphens. -/
def backfillDob (t : Str) : Option Str :=
  (firstSearch false t dobPatterns).map (fun g => slashToDash (grp 1 g))

/-- Backfill extraction for the roll number. -/
def backfillRoll (t : Str) : Option Str :=
  (firstSearch true t rollPatterns).map (fun g => pyStrip (grp 1 g))

/-- Backfill extraction for the registration number. -/
def backfillReg (t : Str) : Option Str :=
  (firstSearch true t regPatterns).map (fun g => pyStrip (grp 1 g))

/-- Backfill extraction for the exam year (group 1, not stripped). -/
def backfillYear (t : Str) : Option Str :=
  (firstSearch true t yearPatterns).map (fun g => grp 1 g)

/-- Backfill extraction for the board. -/
def backfillBoard (t : Str) : Option Str :=
  (firstSearch true t boardPatterns).map (fun g => pyStrip (grp 1 g))

/-- Backfill extraction for the institution. -/
def backfillInstitution (t : Str) : Option Str :=
  (firstSearch true t institutionPatterns).map (fun g => pyStrip (grp 1 g))

/-- Backfill extraction for the division (group 1, not stripped). -/
def backfillDivision (t : Str) : Option Str :=
  (firstSearch true t divisionPatterns).map (fun g => grp 1 g)

/-- Backfill extraction for the percentage: `float()` of group 1.  The
captured shape is always a valid float literal, so the parse never fails. -/
def backfillPercentage (t : Str) : Option ℚ :=
  (firstSearch true t percentagePatterns).bind (fun g => pyParseFloat (grp 1 g))

/-- Backfill extraction for the issue date. -/
def backfillDate (t : Str) : Option Str :=
  (firstSearch true t datePatterns).map (fun g => slashToDash (grp 1 g))

/-- Backfill extraction for the issue place. -/
def backfillPlace (t : Str) : Option Str :=
  (firstSearch true t placePatterns).map (fun g => pyStrip (grp 1 g))

/-- `_post_process_missing_fields` from `extractor.py`: every canonical
scalar field that is falsy is (re)computed from the OCR text by its
ordered pattern list; truthy fields and the subjects and overall grade are
left untouched. -/
def _post_process_missing_fields (data : StructuredData) (ocr_text : Str) : StructuredData :=
  { candidate_details :=
      { name := fillS data.candidate_details.name (backfillName ocr_text),
        father_name := fillS data.candidate_details.father_name (backfillFather ocr_text),
        dob := fillS data.candidate_details.dob (backfillDob ocr_text),
        roll_no := fillS data.candidate_details.roll_no (backfillRoll ocr_text),
        registration_no := fillS data.candidate_details.registration_no (backfillReg ocr_text),
        exam_year := fillS data.candidate_details.exam_year (backfillYear ocr_text),
        board := fillS data.candidate_details.board (backfillBoard ocr_text),
        institution := fillS data.candidate_details.institution (backfillInstitution ocr_text) },
    subjects := data.subjects,
    overall_result :=
      { division := fillS data.overall_result.division (backfillDivision ocr_text),
        percentage := fillQ data.overall_result.percentage (backfillPercentage ocr_text),
        grade := data.overall_result.grade },
    issue_details :=
      { date := fillS data.issue_details.date (backfillDate ocr_text),
        place := fillS data.issue_details.place (backfillPlace ocr_text) } }

/-- JSON values as produced by `json.loads` (object key order preserved,
later duplicate keys overwriting earlier values as in a Python dict).
`infinite` covers the non-standard `Infinity` / `-Infinity` / `NaN`
constants Python accepts; they never occur in this development's inputs. -/
inductive Json where
  | null
  | bool (b : Bool)
  | num (q : ℚ)
  | jstr (s : Str)
  | arr (elems : List Json)
  | obj (fields : List (Str × Json))
  | infinite (neg : Bool)
  | nanConst

/-- JSON insignificant whitespace. -/
def jsonWs (c : Char) : Bool := c = ' ' ∨ c = '\t' ∨ c = '\n' ∨ c = '\r'

/-- Drop leading JSON whitespace. -/
def skipWs (s : Str) : Str := s.dropWhile jsonWs

/-- Value of a hexadecimal digit. -/
def hexVal (c : Char) : Option Nat :=
  if '0' ≤ c ∧ c ≤ '9' then some (c.toNat - 48)
  else if 'a' ≤ c ∧ c ≤ 'f' then some (c.toNat - 87)
  else if 'A' ≤ c ∧ c ≤ 'F' then some (c.toNat - 55)
  else none

/-- Body of a JSON string after the opening quote: content up to the
closing quote, decoding escapes, rejecting raw control characters. -/
def jsonStringAux : Nat → Str → Option (Str × Str)
  | 0, _ => none
  | fuel + 1, s =>
    match s with
    | [] => none
    | '"' :: rest => some ([], rest)
    | '\\' :: e :: rest =>
      let cont := fun (c : Char) (r : Str) =>
        (jsonStringAux fuel r).map (fun pr => (c :: pr.1, pr.2))
      if e = '"' then cont '"' rest
      else if e = '\\' then cont '\\' rest
      else if e = '/' then cont '/' rest
      else if e = 'b' then cont '\x08' rest
      else if e = 'f' then cont '\x0c' rest
      else if e = 'n' then cont '\n' rest
      else if e = 'r' then cont '\r' rest
      else if e = 't' then cont '\t' rest
      else if e = 'u' then
        match rest with
        | h1 :: h2 :: h3 :: h4 :: r2 =>
          match hexVal h1, hexVal h2, hexVal h3, hexVal h4 with
          | some a, some b, some c, some d =>
            cont (Char.ofNat (((a * 16 + b) * 16 + c) * 16 + d)) r2
          | _, _, _, _ => none
        | _ => none
      else none
    | c :: rest =>
      if c.toNat < 32 then none
      else (jsonStringAux fuel rest).map (fun pr => (c :: pr.1, pr.2))

/-- A JSON number (strict grammar: no leading zeros, mandatory integer
part), returning its rational value and the rest. -/
def jsonNumber (s : Str) : Option (ℚ × Str) :=
  let (neg, s1) := match s with | '-' :: r => (true, r) | _ => (false, s)
  let (ip, r1) := takeDigits s1
  if ip.isEmpty then none
  else if 2 ≤ ip.length ∧ ip.headD '0' = '0' then none
  else
    let withFrac : ℚ × Str :=
      match r1 with
      | '.' :: r2 =>
        let (fp, r3) := takeDigits r2
        if fp.isEmpty then ((natOfDigits ip : ℚ), r1)
        else ((natOfDigits ip : ℚ) + fracOfDigits fp, r3)
      | _ => ((natOfDigits ip : ℚ), r1)
    let (m, r3) := withFrac
    let withExp : Option (ℚ × Str) :=
      match r3 with
      | c :: r4 =>
        if c = 'e' ∨ c = 'E' then
          let (eneg, d0) :=
            match r4 with
            | '-' :: d => (true, d)
            | '+' :: d => (false, d)
            | _ => (false, r4)
          let (ed, r5) := takeDigits d0
          if ed.isEmpty then none
          else
            let e : ℤ := if eneg then -(natOfDigits ed : ℤ) else (natOfDigits ed : ℤ)
            some (m * (10 : ℚ) ^ e, r5)
        else some (m, r3)
      | [] => some (m, r3)
    withExp.map (fun pr => (if neg then -pr.1 else pr.1, pr.2))

/-- Strict check that the fractional dot, if present, is well-formed
(`json.loads` rejects `1.` and `1.e3`). -/
def jsonNumberOk (s : Str) : Option (ℚ × Str) :=
  let s1 := match s with | '-' :: r => r | _ => s
  let (_, r1) := takeDigits s1
  match r1 with
  | '.' :: r2 => if (takeDigits r2).1.isEmpty then none else jsonNumber s
  | _ => jsonNumber s

/-- Insert a key/value pair as Python dict assignment does: keep the
position of an existing key but overwrite its value. -/
def objInsert (l : List (Str × Json)) (k : Str) (v : Json) : List (Str × Json) :=
  if l.any (fun p => p.1 = k) then l.map (fun p => if p.1 = k then (k, v) else p)
  else l ++ [(k, v)]

mutual

/-- Recursive-descent JSON value parser (leading whitespace already
skipped); models `json.loads` with Python's default settings. -/
def jsonValue : Nat → Str → Option (Json × Str)
  | 0, _ => none
  | fuel + 1, s =>
    match s with
    | [] => none
    | c :: rest =>
      if c = '{' then
        match jsonObjItems fuel (skipWs rest) [] with
        | some (fields, r) => some (.obj fields, r)
        | none => none
      else if c = '[' then
        match jsonArrItems fuel (skipWs rest) with
        | some (elems, r) => some (.arr elems, r)
        | none => none
      else if c = '"' then
        match jsonStringAux (rest.length + 1) rest with
        | some (content, r) => some (.jstr content, r)
        | none => none
      else if (str "true").isPrefixOf s then some (.bool true, s.drop 4)
      else if (str "false").isPrefixOf s then some (.bool false, s.drop 5)
      else if (str "null").isPrefixOf s then some (.null, s.drop 4)
      else if (str "NaN").isPrefixOf s then some (.nanConst, s.drop 3)
      else if (str "Infinity").isPrefixOf s then some (.infinite false, s.drop 8)
      else if (str "-Infinity").isPrefixOf s then some (.infinite true, s.drop 9)
      else
        match jsonNumberOk s with
        | some (q, r) => some (.num q, r)
        | none => none

/-- Items of a JSON array, positioned after `[` (whitespace skipped). -/
def jsonArrItems : Nat → Str → Option (List Json × Str)
  | 0, _ => none
  | fuel + 1, s =>
    match s with
    | ']' :: rest => some ([], rest)
    | _ =>
      match jsonValue fuel s with
      | none => none
      | some (v, r) =>
        match skipWs r with
        | ',' :: r2 =>
          match jsonArrItems fuel (skipWs r2) with
          | some (vs, r3) =>
            match vs, skipWs r2 with
            | [], ']' :: _ => none
            | _, _ => some (v :: vs, r3)
          | none => none
        | ']' :: r2 => some ([v], r2)
        | _ => none

/-- Fields of a JSON object, positioned after `{` (whitespace skipped);
`acc` holds the fields parsed so far, in dict order. -/
def jsonObjItems : Nat → Str → List (Str × Json) → Option (List (Str × Json) × Str)
  | 0, _, _ => none
  | fuel + 1, s, acc =>
    match s with
    | '}' :: rest => some (acc, rest)
    | '"' :: rest =>
      match jsonStringAux (rest.length + 1) rest with
      | none => none
      | some (k, r) =>
        match skipWs r with
        | ':' :: r2 =>
          match jsonValue fuel (skipWs r2) with
          | none => none
          | some (v, r3) =>
            let acc2 := objInsert acc k v
            match skipWs r3 with
            | ',' :: r4 =>
              match skipWs r4 with
              | '"' :: _ => jsonObjItems fuel (skipWs r4) acc2
              | _ => none
            | '}' :: r4 => some (acc2, r4)
            | _ => none
        | _ => none
    | _ => none

end

/-- Python `json.loads`: parse one value and require only whitespace after
it. -/
def jsonLoads (s : Str) : Option Json :=
  match jsonValue (2 * s.length + 4) (skipWs s) with
  | some (j, rest) => if skipWs rest = [] then some j else none
  | none => none

/-- The fenced-code-block pattern of `_parse_response` (with `re.DOTALL`):
a literal fence, optional whitespace, a lazily captured body, optional
whitespace, and the closing fence. -/
def fencedJsonRe : Re :=
  rseq [rlit "```json", rstar rspace, Re.group 1 (Re.star Re.anyc true),
    rstar rspace, rlit "```"]

/-- The brace-span pattern of `_parse_response` (with `re.DOTALL`): an
opening brace, any greedy run, and a closing brace. -/
def braceSpanRe : Re := rseq [Re.lit '{', Re.star Re.anyc false, Re.lit '}']

/-- `_get_empty_structure` from `llm.py`: the canonical empty record, all
candidate/overall/issue fields `null` and no subjects. -/
def _get_empty_structure : Json :=
  Json.obj
    [(str "candidate_details", Json.obj
        [(str "name", Json.null), (str "father_name", Json.null), (str "dob", Json.null),
         (str "roll_no", Json.null), (str "registration_no", Json.null),
         (str "exam_year", Json.null), (str "board", Json.null),
         (str "institution", Json.null)]),
     (str "subjects", Json.arr []),
     (str "overall_result", Json.obj
        [(str "division", Json.null), (str "percentage", Json.null),
         (str "grade", Json.null)]),
     (str "issue_details", Json.obj
        [(str "date", Json.null), (str "place", Json.null)])]

/-- `_parse_response` from `llm.py`: extract the fenced block's body, else
the first brace span, and run `json.loads` on it; a parse failure raises
(modelled as `Except.error`); only when neither shape is found at all is
the canonical empty structure returned. -/
def _parse_response (response : Str) : Except Unit Json :=
  match reSearch false fencedJsonRe response with
  | some m =>
    match jsonLoads (grp 1 m.2.2) with
    | some data => Except.ok data
    | none => Except.error ()
  | none =>
    match reSearch false braceSpanRe response with
    | some m =>
      match jsonLoads (pySlice response m.1 m.2.1) with
      | some data => Except.ok data
      | none => Except.error ()
    | none => Except.ok _get_empty_structure

/-- The clamp to `[0, 1]` is nonnegative. -/
theorem clamp01_nonneg (x : ℚ) : 0 ≤ max 0 (min 1 x) := le_max_left 0 _

/-- The clamp to `[0, 1]` is at most one. -/
theorem clamp01_le_one (x : ℚ) : max 0 (min 1 x) ≤ 1 :=
  max_le (by norm_num) (min_le_left 1 x)

/-- The clamp to `[0, 1]` preserves a lower bound below one. -/
theorem clamp01_lower {b x : ℚ} (hb : b ≤ 1) (hx : b ≤ x) : b ≤ max 0 (min 1 x) :=
  le_trans (le_min hb hx) (le_max_right 0 _)

/-- A truthy field is left unchanged by a fill block. -/
theorem fillS_truthy {cur : Option Str} (found : Option Str) (h : truthyS cur = true) :
    fillS cur found = cur := by
  unfold fillS
  simp [h]

/-- A truthy numeric field is left unchanged by a fill block. -/
theorem fillQ_truthy {cur : Option ℚ} (found : Option ℚ) (h : truthyQ cur = true) :
    fillQ cur found = cur := by
  unfold fillQ
  simp [h]

/-- A fill block is idempotent, whatever the truthiness of the filled
value: a second fill with the same extraction result changes nothing. -/
theorem fillS_idem (cur found : Option Str) : fillS (fillS cur found) found = fillS cur found := by
  unfold fillS
  rcases found with _ | v <;> rcases cur with _ | s <;> simp <;> split_ifs <;> simp_all

/-- Numeric analogue of `fillS_idem`. -/
theorem fillQ_idem (cur found : Option ℚ) : fillQ (fillQ cur found) found = fillQ cur found := by
  unfold fillQ
  rcases found with _ | v <;> rcases cur with _ | s <;> simp <;> split_ifs <;> simp_all

/-- C9: the Field Backfill Pass is idempotent: applying
`_post_process_missing_fields` to its own output with the same OCR text
produces no further changes — the first pass's result is a fixed point. -/
theorem backfill_idempotent (d : StructuredData) (t : Str) :
    _post_process_missing_fields (_post_process_missing_fields d t) t =
      _post_process_missing_fields d t := by
  simp only [_post_process_missing_fields]
  simp [fillS_idem, fillQ_idem]

/-- C4 (amended): the Field Backfill Pass never changes a field whose
current value is truthy (a non-empty string, or a non-zero number), and it
never touches the subjects or the overall grade.  (A present but falsy
value — the number `0.0` or an empty string — is treated as absent by the
pass's `if not data[...]` guards and can be overwritten, see
`backfill_counterexample`.) -/
theorem backfill_preserves_truthy (d : StructuredData) (t : Str) :
    (truthyS d.candidate_details.name = true →
      (_post_process_missing_fields d t).candidate_details.name = d.candidate_details.name) ∧
    (truthyS d.candidate_details.father_name = true →
      (_post_process_missing_fields d t).candidate_details.father_name =
        d.candidate_details.father_name) ∧
    (truthyS d.candidate_details.dob = true →
      (_post_process_missing_fields d t).candidate_details.dob = d.candidate_details.dob) ∧
    (truthyS d.candidate_details.roll_no = true →
      (_post_process_missing_fields d t).candidate_details.roll_no =
        d.candidate_details.roll_no) ∧
    (truthyS d.candidate_details.registration_no = true →
      (_post_process_missing_fields d t).candidate_details.registration_no =
        d.candidate_details.registration_no) ∧
    (truthyS d.candidate_details.exam_year = true →
      (_post_process_missing_fields d t).candidate_details.exam_year =
        d.candidate_details.exam_year) ∧
    (truthyS d.candidate_details.board = true →
      (_post_process_missing_fields d t).candidate_details.board = d.candidate_details.board) ∧
    (truthyS d.candidate_details.institution = true →
      (_post_process_missing_fields d t).candidate_details.institution =
        d.candidate_details.institution) ∧
    (truthyS d.overall_result.division = true →
      (_post_process_missing_fields d t).overall_result.division =
        d.overall_result.division) ∧
    (truthyQ d.overall_result.percentage = true →
      (_post_process_missing_fields d t).overall_result.percentage =
        d.overall_result.percentage) ∧
    (truthyS d.issue_details.date = true →
      (_post_process_missing_fields d t).issue_details.date = d.issue_details.date) ∧
    (truthyS d.issue_details.place = true →
      (_post_process_missing_fields d t).issue_details.place = d.issue_details.place) ∧
    (_post_process_missing_fields d t).subjects = d.subjects ∧
    (_post_process_missing_fields d t).overall_result.grade = d.overall_result.grade := by
  refine ⟨fun h => ?_, fun h => ?_, fun h => ?_, fun h => ?_, fun h => ?_, fun h => ?_,
    fun h => ?_, fun h => ?_, fun h => ?_, fun h => ?_, fun h => ?_, fun h => ?_, ?_, ?_⟩ <;>
    simp [_post_process_missing_fields, fillS_truthy, fillQ_truthy, *]

/-- The record of the C4 counterexample: a present percentage of `0.0`
(and every other field absent). -/
def c4Record : StructuredData :=
  { candidate_details := ⟨none, none, none, none, none, none, none, none⟩,
    subjects := [],
    overall_result := ⟨none, some 0, none⟩,
    issue_details := ⟨none, none⟩ }

/-- C4 (counterexample): with a present percentage value `0.0` and OCR
text `"Percentage: 55%"`, the backfill pass overwrites the present value
with `55.0`, so the pass does change an already-present field. -/
theorem backfill_counterexample :
    c4Record.overall_result.percentage = some 0 ∧
    (_post_process_missing_fields c4Record (str "Percentage: 55%")).overall_result.percentage =
      some 55 ∧
    (some (55 : ℚ) : Option ℚ) ≠ some 0 := by
  refine ⟨rfl, ?_, by norm_num⟩
  with_unfolding_all decide

/-- Witness for C4: the claim's own test instance — a record with
`dob = "01-01-2000"` and a raw text containing the different date
`05/06/1999` leaves the date of birth unchanged. -/
theorem backfill_preserves_truthy_witness :
    (_post_process_missing_fields
        { candidate_details := ⟨none, none, some (str "01-01-2000"), none, none, none, none, none⟩,
          subjects := [],
          overall_result := ⟨none, none, none⟩,
          issue_details := ⟨none, none⟩ }
        (str "Date of Birth: 05/06/1999")).candidate_details.dob =
      some (str "01-01-2000") :=
  (backfill_preserves_truthy _ _).2.2.1 (by decide)

/-- For a non-empty value, `calculate_confidence` unfolds to the clamped
weighted blend of its three sub-scores. -/
theorem confidence_eq_clamp (sim : Str → Str → ℚ) (field_name v ocr_text : Str)
    (h : v ≠ []) :
    calculate_confidence sim field_name (some v) ocr_text =
      max 0 (min 1 (0.4 * _validate_field field_name v +
        0.3 * _get_ocr_confidence sim v ocr_text +
        0.3 * _get_context_confidence field_name v ocr_text)) := by
  simp [calculate_confidence, h]

/-- C1: for a non-empty value, `calculate_confidence` returns exactly the
weighted blend `0.4·validation + 0.3·fidelity + 0.3·context`, clamped to
`[0, 1]`; in particular the result always lies in `[0, 1]`. -/
theorem calculate_confidence_blend (sim : Str → Str → ℚ) (field_name v ocr_text : Str)
    (h : v ≠ []) :
    calculate_confidence sim field_name (some v) ocr_text =
      max 0 (min 1 (0.4 * _validate_field field_name v +
        0.3 * _get_ocr_confidence sim v ocr_text +
        0.3 * _get_context_confidence field_name v ocr_text)) ∧
    0 ≤ calculate_confidence sim field_name (some v) ocr_text ∧
    calculate_confidence sim field_name (some v) ocr_text ≤ 1 := by
  have he := confidence_eq_clamp sim field_name v ocr_text h
  exact ⟨he, he ▸ clamp01_nonneg _, he ▸ clamp01_le_one _⟩

/-- Witness for C1 at a concrete field, value, OCR text and similarity
function. -/
theorem calculate_confidence_blend_witness :
    0 ≤ calculate_confidence (fun _ _ => 1) (str "dob") (some (str "01-01-2000")) (str "") ∧
    calculate_confidence (fun _ _ => 1) (str "dob") (some (str "01-01-2000")) (str "") ≤ 1 :=
  (calculate_confidence_blend (fun _ _ => 1) (str "dob") (str "01-01-2000") (str "")
    (by decide)).2

/-- C2: for every field name and OCR text, an absent (`None`) or empty
field value gets confidence `0`. -/
theorem calculate_confidence_empty (sim : Str → Str → ℚ) (field_name ocr_text : Str) :
    calculate_confidence sim field_name none ocr_text = 0 ∧
    calculate_confidence sim field_name (some []) ocr_text = 0 := by
  constructor
  · rfl
  · simp [calculate_confidence]

/-- C3 (amended): the response parser returns the canonical empty
structure exactly in the no-candidate case — when the reply contains
neither a fenced JSON block nor any brace-delimited span.  (When such a
span is found but fails to parse, the parser raises instead, see
`parse_response_counterexample`.) -/
theorem parse_response_no_json (s : Str)
    (h1 : reSearch false fencedJsonRe s = none)
    (h2 : reSearch false braceSpanRe s = none) :
    _parse_response s = Except.ok _get_empty_structure ∧
    _get_empty_structure = Json.obj
      [(str "candidate_details", Json.obj
          [(str "name", Json.null), (str "father_name", Json.null), (str "dob", Json.null),
           (str "roll_no", Json.null), (str "registration_no", Json.null),
           (str "exam_year", Json.null), (str "board", Json.null),
           (str "institution", Json.null)]),
       (str "subjects", Json.arr []),
       (str "overall_result", Json.obj
          [(str "division", Json.null), (str "percentage", Json.null),
           (str "grade", Json.null)]),
       (str "issue_details", Json.obj
          [(str "date", Json.null), (str "place", Json.null)])] := by
  constructor
  · unfold _parse_response
    rw [h1, h2]
  · rfl

/-- Witness for C3 on a reply with no JSON-like content at all. -/
theorem parse_response_no_json_witness :
    _parse_response (str "the model returned no data") = Except.ok _get_empty_structure :=
  (parse_response_no_json (str "the model returned no data") (by decide) (by decide)).1

/-- C3 (counterexample): on the reply `"{invalid}"` a brace span is found
but is not valid JSON, and the parser raises (an extraction error) instead
of returning the canonical empty structure. -/
theorem parse_response_counterexample :
    _parse_response (str "{invalid}") = Except.error () ∧
    Except.error () ≠ (Except.ok _get_empty_structure : Except Unit Json) := by
  constructor
  · with_unfolding_all rfl
  · exact fun h => Except.noConfusion h

/-- Lower bound through an if-then-else. -/
theorem ite_ge {b x y : ℚ} (c : Prop) [Decidable c] (hx : b ≤ x) (hy : b ≤ y) :
    b ≤ if c then x else y := by
  split_ifs <;> assumption

/-- Every branch of the name validation scores at least `0.3`. -/
theorem validate_name_ge (v : Str) : (3/10 : ℚ) ≤ validate_name v := by
  unfold validate_name
  apply ite_ge
  · apply ite_ge <;> norm_num
  · norm_num

/-- Every branch of the date validation scores at least `0.2`. -/
theorem validate_date_ge (v : Str) : (1/5 : ℚ) ≤ validate_date v := by
  unfold validate_date
  repeat' split
  all_goals norm_num

/-- Every branch of the exam-year validation scores at least `0.3`. -/
theorem validate_exam_year_ge (v : Str) : (3/10 : ℚ) ≤ validate_exam_year v := by
  unfold validate_exam_year
  repeat' split
  all_goals norm_num

/-- Every branch of the marks validation scores at least `0.1`. -/
theorem validate_marks_ge (v : Str) : (1/10 : ℚ) ≤ validate_marks v := by
  unfold validate_marks
  repeat' split
  all_goals norm_num

/-- Every branch of the percentage validation scores at least `0.1`. -/
theorem validate_percentage_ge (v : Str) : (1/10 : ℚ) ≤ validate_percentage v := by
  unfold validate_percentage
  repeat' split
  all_goals norm_num

/-- For a non-empty value, every branch of `_validate_field` scores at
least `0.1`. -/
theorem validate_field_ge (field_name v : Str) (h : v ≠ []) :
    (1/10 : ℚ) ≤ _validate_field field_name v := by
  unfold _validate_field
  rw [if_neg h]
  apply ite_ge
  · exact le_trans (by norm_num) (validate_name_ge v)
  apply ite_ge
  · exact le_trans (by norm_num) (validate_name_ge v)
  apply ite_ge
  · exact le_trans (by norm_num) (validate_date_ge v)
  apply ite_ge
  · apply ite_ge <;> norm_num
  apply ite_ge
  · exact le_trans (by norm_num) (validate_exam_year_ge v)
  apply ite_ge
  · apply ite_ge <;> norm_num
  apply ite_ge
  · apply ite_ge <;> norm_num
  apply ite_ge
  · apply ite_ge <;> norm_num
  apply ite_ge
  · exact validate_marks_ge v
  apply ite_ge
  · apply ite_ge <;> norm_num
  apply ite_ge
  · apply ite_ge <;> norm_num
  apply ite_ge
  · exact validate_percentage_ge v
  apply ite_ge
  · exact le_trans (by norm_num) (validate_date_ge v)
  apply ite_ge
  · apply ite_ge <;> norm_num
  norm_num

/-- Every branch of `_get_ocr_confidence` scores at least `0.5`, whatever
the external similarity function reports. -/
theorem ocr_confidence_ge (sim : Str → Str → ℚ) (v t : Str) :
    (1/2 : ℚ) ≤ _get_ocr_confidence sim v t := by
  unfold _get_ocr_confidence
  apply ite_ge
  · norm_num
  · apply ite_ge
    · norm_num
    · apply ite_ge
      · apply ite_ge
        · norm_num
        · apply ite_ge
          · norm_num
          · apply ite_ge <;> norm_num
      · norm_num

/-- The indicator loop of `_get_context_confidence` computes a maximum
with `0.8` exactly when some indicator occurs in the window. -/
theorem indicators_fold_eq (l : List Str) (ctx : Str) (sc : ℚ) :
    l.foldl (fun sc ind => if strContains ctx ind then max sc 0.8 else sc) sc =
      if l.any (fun i => strContains ctx i) then max sc 0.8 else sc := by
  induction l generalizing sc with
  | nil => simp
  | cons i l ih =>
    simp only [List.foldl_cons, List.any_cons]
    by_cases hi : strContains ctx i = true
    · rw [if_pos hi, ih]
      have hmax : max (max sc 0.8) 0.8 = max sc 0.8 := by rw [max_assoc, max_self]
      simp [hi, hmax]
    · rw [Bool.not_eq_true] at hi
      rw [if_neg (by simp [hi]), ih]
      simp [hi]

/-- Closed form of one window's context score: `0.9` when a boost term of
the field's `if`/`elif` chain occurs in the window, else `0.8` when one of
the field's indicator keywords occurs, else the `0.5` default. -/
theorem contextWindowScore_eq (field_name ctx : Str) :
    contextWindowScore field_name ctx =
      if (contextBoostTerms field_name).any (fun term => strContains ctx term) then 0.9
      else if (_get_field_indicators field_name).any (fun i => strContains ctx i) then 0.8
      else 0.5 := by
  unfold contextWindowScore contextBoost
  rw [indicators_fold_eq]
  split_ifs <;> norm_num [max_def]

/-- Every window score is at least `0.5`. -/
theorem contextWindowScore_ge (field_name ctx : Str) :
    (1/2 : ℚ) ≤ contextWindowScore field_name ctx := by
  rw [contextWindowScore_eq]
  split_ifs <;> norm_num

/-- A fold of `max` never drops below a bound on its starting value. -/
theorem le_foldl_max (b : ℚ) : ∀ (t : List ℚ) (h : ℚ), b ≤ h → b ≤ t.foldl max h
  | [], _, hb => hb
  | x :: t, h, hb => le_foldl_max b t (max h x) (le_trans hb (le_max_left h x))

/-- `_get_context_confidence` always scores at least `0.3`. -/
theorem context_confidence_ge (field_name v t : Str) :
    (3/10 : ℚ) ≤ _get_context_confidence field_name v t := by
  unfold _get_context_confidence
  rcases hocc : allOccurrences t v with _ | ⟨p, ps⟩
  · norm_num [hocc]
  · simp only [hocc, List.isEmpty_cons, if_neg]
    simp only [List.map_cons, listMax]
    apply le_foldl_max
    exact le_trans (by norm_num) (contextWindowScore_ge field_name _)

/-- Shared lower bound: for a non-empty value the blended confidence is at
least `0.28`. -/
theorem calculate_confidence_ge (sim : Str → Str → ℚ) (field_name v ocr_text : Str)
    (h : v ≠ []) : (28/100 : ℚ) ≤ calculate_confidence sim field_name (some v) ocr_text := by
  have he := confidence_eq_clamp sim field_name v ocr_text h
  rw [he]
  apply clamp01_lower (by norm_num)
  have h1 := validate_field_ge field_name v h
  have h2 := ocr_confidence_ge sim v ocr_text
  have h3 := context_confidence_ge field_name v ocr_text
  linarith

/-- C10: for a non-empty value the returned confidence is bounded below by
`0.28` (hence strictly positive), and a returned confidence of `0` occurs
exactly for absent or empty values. -/
theorem calculate_confidence_positive (sim : Str → Str → ℚ) (field_name ocr_text : Str) :
    (∀ v : Str, v ≠ [] →
      (28/100 : ℚ) ≤ calculate_confidence sim field_name (some v) ocr_text ∧
      0 < calculate_confidence sim field_name (some v) ocr_text) ∧
    (∀ w : Option Str,
      calculate_confidence sim field_name w ocr_text = 0 ↔ (w = none ∨ w = some [])) := by
  constructor
  · intro v hv
    have hb := calculate_confidence_ge sim field_name v ocr_text hv
    exact ⟨hb, lt_of_lt_of_le (by norm_num) hb⟩
  · intro w
    rcases w with _ | u
    · simp [calculate_confidence]
    · rcases eq_or_ne u [] with hu | hu
      · subst hu
        simp [calculate_confidence]
      · have hb := calculate_confidence_ge sim field_name u ocr_text hu
        constructor
        · intro h0
          rw [h0] at hb
          norm_num at hb
        · intro hcase
          rcases hcase with hcase | hcase
          · exact Option.noConfusion hcase
          · exact absurd (Option.some_inj.mp hcase) hu

/-- Witness for C10 at a concrete field, value and text. -/
theorem calculate_confidence_positive_witness :
    (28/100 : ℚ) ≤
        calculate_confidence (fun _ _ => 1) (str "name") (some (str "Ab")) (str "") ∧
      0 < calculate_confidence (fun _ _ => 1) (str "name") (some (str "Ab")) (str "") :=
  (calculate_confidence_positive (fun _ _ => 1) (str "name") (str "")).1 (str "Ab") (by decide)

/-- C6 (amended): the context sub-score is `0.3` when the value does not
occur in the OCR text; otherwise it is the maximum over all occurrences of
a per-window score that is `0.9` when a term of the field's boost chain
appears in the ±150-character window, `0.8` when (only) one of the field's
anchor-keyword indicators appears, and `0.5` otherwise. -/
theorem context_confidence_characterization (field_name v ocr_text : Str) :
    _get_context_confidence field_name v ocr_text =
      if (allOccurrences ocr_text v).isEmpty then 0.3
      else
        listMax ((allOccurrences ocr_text v).map (fun pos =>
          let ctx := lowerStr
            (pySlice ocr_text (pos - 150) (min ocr_text.length (pos + v.length + 150)))
          if (contextBoostTerms field_name).any (fun term => strContains ctx term) then 0.9
          else if (_get_field_indicators field_name).any (fun i => strContains ctx i) then 0.8
          else 0.5)) := by
  unfold _get_context_confidence
  simp only [contextWindowScore_eq]

/-- Modelled from the spec: the claim's description of the context
sub-score, under which every occurrence window scores `0.9` as soon as any
field-specific anchor keyword appears in it and `0.5` otherwise — with no
intermediate `0.8` tier. -/
def claimedContextScore (field_name v ocr_text : Str) : ℚ :=
  let occ := allOccurrences ocr_text v
  if occ.isEmpty then 0.3
  else
    listMax (occ.map (fun pos =>
      let ctx := lowerStr
        (pySlice ocr_text (pos - 150) (min ocr_text.length (pos + v.length + 150)))
      if (_get_field_indicators field_name).any (fun i => strContains ctx i) then 0.9
      else 0.5))

/-- C6 (counterexample): for the field `name`, the value `"XYZ"` and the
OCR text `"name XYZ"`, the code's context sub-score is `0.8` — the anchor
keyword `"name"` is in the window but no boost term of the `name` chain is
— while the claimed two-tier rule would give `0.9`. -/
theorem context_confidence_counterexample :
    _get_context_confidence (str "name") (str "XYZ") (str "name XYZ") = 0.8 ∧
    claimedContextScore (str "name") (str "XYZ") (str "name XYZ") = 0.9 ∧
    _get_context_confidence (str "name") (str "XYZ") (str "name XYZ") ≠
      claimedContextScore (str "name") (str "XYZ") (str "name XYZ") := by
  refine ⟨?_, ?_, ?_⟩ <;> with_unfolding_all decide

/-- The Python substring test agrees with list-infix containment. -/
theorem strContains_iff (hay needle : Str) : strContains hay needle = true ↔ needle <:+: hay := by
  induction hay with
  | nil =>
    simp only [strContains, findFrom]
    constructor
    · intro h
      have hp : needle.isPrefixOf ([] : Str) = true := by
        by_contra hn
        rw [Bool.not_eq_true] at hn
        simp [hn] at h
      exact (List.isPrefixOf_iff_prefix.mp hp).isInfix
    · intro h
      have : needle = [] := List.eq_nil_of_infix_nil h
      simp [this, List.isPrefixOf]
  | cons c t ih =>
    simp only [strContains, findFrom]
    by_cases hp : needle.isPrefixOf (c :: t) = true
    · simp only [hp, if_true, Option.isSome_some, true_iff]
      exact (List.isPrefixOf_iff_prefix.mp hp).isInfix
    · rw [Bool.not_eq_true] at hp
      simp only [hp, Bool.false_eq_true, if_false]
      have hmap : (Option.map (fun n => n + 1) (findFrom needle t)).isSome =
          (findFrom needle t).isSome := by
        rcases findFrom needle t with _ | i <;> rfl
      rw [hmap, show (findFrom needle t).isSome = strContains t needle from rfl, ih,
        List.infix_cons_iff]
      constructor
      · exact Or.inr
      · rintro (hpre | hinf)
        · exact absurd (List.isPrefixOf_iff_prefix.mpr hpre) (by simp [hp])
        · exact hinf

/-- A string containing `"grand total"` contains `"total"`. -/
theorem grand_total_total {l : Str} (h : strContains l (str "grand total") = true) :
    strContains l (str "total") = true := by
  rw [strContains_iff] at h ⊢
  exact List.IsInfix.trans (by decide) h

/-- The stoplist exactly as the claim lists it (the source's extra
`"grand total"` entry is redundant, since any hit on it is a hit on
`"total"`). -/
def claimStoplist : List Str :=
  [str "total", str "result", str "division", str "percentage", str "grade",
   str "marks", str "obtained", str "maximum", str "subject", str "name",
   str "roll", str "registration", str "board", str "school", str "college",
   str "first", str "second"]

/-- The source stoplist and the claim's stoplist reject the same names. -/
theorem stoplists_agree (lower : Str) :
    exclude_terms.any (fun term => strContains lower term) =
      claimStoplist.any (fun term => strContains lower term) := by
  simp only [exclude_terms, claimStoplist, List.any_cons, List.any_nil]
  by_cases hg : strContains lower (str "grand total") = true
  · have ht := grand_total_total hg
    simp [ht]
  · rw [Bool.not_eq_true] at hg
    rw [hg]
    simp [Bool.or_assoc]

/-- C7: the subject-name validity predicate rejects a candidate exactly
when its lowercased form contains a stoplist term, or its length is under
3, or its first character is not a letter, or its alphabetic ratio is at
most one half; in particular any name whose lowercased form contains
`"total"`, `"grade"` or `"percentage"` is rejected. -/
theorem is_valid_subject_spec (subject_name : Str) :
    (_is_valid_subject subject_name = false ↔
      (claimStoplist.any (fun term => strContains (lowerStr subject_name) term) = true ∨
        subject_name.length < 3 ∨
        (subject_name.headD ' ').isAlpha = false ∨
        ((subject_name.filter Char.isAlpha).length : ℚ) / subject_name.length ≤ 1 / 2)) ∧
    (strContains (lowerStr subject_name) (str "total") = true →
      _is_valid_subject subject_name = false) ∧
    (strContains (lowerStr subject_name) (str "grade") = true →
      _is_valid_subject subject_name = false) ∧
    (strContains (lowerStr subject_name) (str "percentage") = true →
      _is_valid_subject subject_name = false) := by
  have hmain : _is_valid_subject subject_name = false ↔
      (claimStoplist.any (fun term => strContains (lowerStr subject_name) term) = true ∨
        subject_name.length < 3 ∨
        (subject_name.headD ' ').isAlpha = false ∨
        ((subject_name.filter Char.isAlpha).length : ℚ) / subject_name.length ≤ 1 / 2) := by
    rcases subject_name with _ | ⟨c, rest⟩
    · with_unfolding_all decide
    · unfold _is_valid_subject
      dsimp only
      rw [stoplists_agree]
      by_cases hs : claimStoplist.any (fun term => strContains (lowerStr (c :: rest)) term) = true
      · simp [hs]
      · rw [Bool.not_eq_true] at hs
        rw [hs]
        simp only [Bool.false_eq_true, if_false, hs, false_or]
        by_cases hl : (c :: rest).length < 3
        · rw [if_pos (by rw [decide_eq_true hl]; rfl)]
          constructor
          · intro _
            exact Or.inl hl
          · intro _
            rfl
        · by_cases ha : c.isAlpha = true
          · rw [if_neg (by simp only [List.length_cons] at hl; simp [ha]; omega)]
            rw [decide_eq_false_iff_not, not_lt]
            constructor
            · intro hr
              exact Or.inr (Or.inr hr)
            · rintro (h | h | h)
              · exact absurd h hl
              · rw [List.headD_cons, ha] at h
                exact Bool.noConfusion h
              · exact h
          · rw [Bool.not_eq_true] at ha
            rw [if_pos (by simp [ha])]
            constructor
            · intro _
              refine Or.inr (Or.inl ?_)
              rw [List.headD_cons]
              exact ha
            · intro _
              rfl
  refine ⟨hmain, fun h => ?_, fun h => ?_, fun h => ?_⟩ <;>
    [exact hmain.mpr (Or.inl (by
      simp only [claimStoplist, List.any_cons]
      simp [h]));
     exact hmain.mpr (Or.inl (by
      simp only [claimStoplist, List.any_cons]
      simp [h]));
     exact hmain.mpr (Or.inl (by
      simp only [claimStoplist, List.any_cons]
      simp [h]))]

/-- Witness for C7: `"Total Marks"` contains the stoplist term `"total"`
and is rejected. -/
theorem is_valid_subject_spec_witness :
    _is_valid_subject (str "Total Marks") = false :=
  (is_valid_subject_spec (str "Total Marks")).2.1 (by decide)

/-- A four-group row builder only yields rows whose name passes the
validity predicate. -/
theorem mkRow4_valid {g : Groups} {row : SubjectRow} (h : mkRow4 g = some row) :
    _is_valid_subject row.subject = true := by
  unfold mkRow4 at h
  by_cases hv : _is_valid_subject (pyStrip (grp 1 g)) = true
  · simp only [hv, if_true] at h
    cases h
    exact hv
  · rw [Bool.not_eq_true] at hv
    simp [hv] at h

/-- A three-group row builder only yields valid rows. -/
theorem mkRow3_valid {g : Groups} {row : SubjectRow} (h : mkRow3 g = some row) :
    _is_valid_subject row.subject = true := by
  unfold mkRow3 at h
  by_cases hv : _is_valid_subject (pyStrip (grp 1 g)) = true
  · simp only [hv, if_true] at h
    cases h
    exact hv
  · rw [Bool.not_eq_true] at hv
    simp [hv] at h

/-- A two-group row builder only yields valid rows. -/
theorem mkRow2_valid {g : Groups} {row : SubjectRow} (h : mkRow2 g = some row) :
    _is_valid_subject row.subject = true := by
  unfold mkRow2 at h
  by_cases hv : _is_valid_subject (pyStrip (grp 1 g)) = true
  · simp only [hv, if_true] at h
    cases h
    exact hv
  · rw [Bool.not_eq_true] at hv
    simp [hv] at h

/-- Every row of the whole-text generic phase passes the validity
predicate. -/
theorem tablePhaseRows_valid {t : Str} {row : SubjectRow}
    (h : row ∈ tablePhaseRows t) : _is_valid_subject row.subject = true := by
  unfold tablePhaseRows at h
  simp only [List.mem_append, List.mem_filterMap] at h
  rcases h with ((((⟨m, _, hm⟩ | ⟨m, _, hm⟩) | ⟨m, _, hm⟩) | ⟨m, _, hm⟩) | ⟨m, _, hm⟩)
  · exact mkRow4_valid hm
  · exact mkRow4_valid hm
  · exact mkRow3_valid hm
  · exact mkRow2_valid hm
  · exact mkRow2_valid hm

/-- Every row of the line-by-line phase passes the validity predicate. -/
theorem linePhaseRows_valid {t : Str} {row : SubjectRow}
    (h : row ∈ linePhaseRows t) : _is_valid_subject row.subject = true := by
  unfold linePhaseRows at h
  simp only [List.mem_flatMap, List.mem_append] at h
  obtain ⟨line, _, hline⟩ := h
  have ofTry : ∀ (p : Re) (mk : Groups → Option SubjectRow),
      (∀ {g : Groups} {r : SubjectRow}, mk g = some r → _is_valid_subject r.subject = true) →
      row ∈ lineTry p mk line → _is_valid_subject row.subject = true := by
    intro p mk hmk hmem
    unfold lineTry at hmem
    rcases hsearch : reSearch false p line with _ | m
    · rw [hsearch] at hmem
      exact absurd hmem (List.not_mem_nil row)
    · rw [hsearch] at hmem
      dsimp only at hmem
      rcases hmk2 : mk m.2.2 with _ | r2
      · rw [hmk2] at hmem
        exact absurd hmem (List.not_mem_nil row)
      · rw [hmk2] at hmem
        simp only [Option.toList_some, List.mem_singleton] at hmem
        subst hmem
        exact hmk hmk2
  rcases hline with (hline | hline) | hline
  · exact ofTry linePat1 mkRow2 (fun h => mkRow2_valid h) hline
  · exact ofTry tablePat5 mkRow2 (fun h => mkRow2_valid h) hline
  · exact ofTry linePat3 mkRow3 (fun h => mkRow3_valid h) hline

/-- C8 (amended): every subject row returned by the fallback parser either
comes from the known-label phase (which bypasses the gate) or has a name
accepted by the validity predicate; the generic and line-by-line phases
apply the predicate to every row. -/
theorem fallback_rows_valid_or_known (ocr_text : Str) (row : SubjectRow)
    (hmem : row ∈ _extract_subjects_fallback ocr_text) :
    row ∈ expectedSubjectRows ocr_text ∨ _is_valid_subject row.subject = true := by
  unfold _extract_subjects_fallback at hmem
  by_cases h3 : 3 ≤ (expectedSubjectRows ocr_text).length
  · rw [if_pos h3] at hmem
    exact Or.inl hmem
  · rw [if_neg h3] at hmem
    simp only [List.mem_append] at hmem
    rcases hmem with (hmem | hmem) | hmem
    · exact Or.inl hmem
    · exact Or.inr (tablePhaseRows_valid hmem)
    · exact Or.inr (linePhaseRows_valid hmem)

/-- Witness for C8 on a concrete text and row. -/
theorem fallback_rows_valid_or_known_witness :
    (⟨str "Language", none, some 156, none⟩ : SubjectRow) ∈
        expectedSubjectRows (str "Language: 156") ∨
      _is_valid_subject (str "Language") = true :=
  fallback_rows_valid_or_known (str "Language: 156") ⟨str "Language", none, some 156, none⟩
    (by with_unfolding_all decide)

/-- C8 (counterexample): a text whose known-label phase fires returns the
row `"FIRST LANGUAGE"`, which the validity predicate rejects — the
predicate is not applied by the known-label phase. -/
theorem fallback_gate_counterexample :
    (⟨str "FIRST LANGUAGE", none, some 80, none⟩ : SubjectRow) ∈
      _extract_subjects_fallback
        (str "FIRST LANGUAGE: 80\nSECOND LANGUAGE: 70\nMATHS: 90") ∧
    _is_valid_subject (str "FIRST LANGUAGE") = false := by
  constructor <;> with_unfolding_all decide

/-- The fallback parser's output on the C5 sample input. -/
def c5Input : Str := str "Language: 156\nScience: 214\n"

/-- C5 (amended): on the sample input the fallback parser yields exactly
three rows — a `"SCIENCE"` row contributed by the known-label phase (kept
because fewer than three known labels matched), then the `"Language"` and
`"Science"` rows from the line-by-line phase, with obtained marks 214, 156
and 214 and no max marks. -/
theorem fallback_sample_rows :
    _extract_subjects_fallback c5Input =
      [⟨str "SCIENCE", none, some 214, none⟩,
       ⟨str "Language", none, some 156, none⟩,
       ⟨str "Science", none, some 214, none⟩] := by
  with_unfolding_all decide

/-- C5 (counterexample): the parser does not yield exactly the claimed two
rows — it yields three. -/
theorem fallback_sample_counterexample :
    (_extract_subjects_fallback c5Input).length = 3 ∧
    _extract_subjects_fallback c5Input ≠
      [⟨str "Language", none, some 156, none⟩,
       ⟨str "Science", none, some 214, none⟩] := by
  constructor <;> with_unfolding_all decide
